import Mathlib

/-!
Shallow embedding of the bucket/file storage manager (`BucketManager.ts`).

The three mongo collections (buckets, files, stats) are lists of records; the
remote object store is a list of containers and of (container, object) pairs.
Every external call that the source makes is given an outcome by an `Env` of
fault flags (a `true` flag means that call reports an error), and each call is
recorded in an effect trace so that ordering and call-count properties can be
stated.  A promise settles as `resolved` or `rejected`; `hung` marks a promise
that is never settled (no resolve/reject on some path), and `crashed` marks an
uncaught exception thrown inside a callback (which also leaves the promise
unsettled, but is distinguished because it is a process-level fault).
-/

/-- `IStorageStats`: one usage record per user. -/
structure StorageStats where
  user : String
  memoryUsed : Int
  memoryAllocated : Int
  apiCallsUsed : Int
  apiCallsAllocated : Int
deriving Repr, DecidableEq

/-- `IBucketEntry`: local record of one remote container. -/
structure BucketEntry where
  mongoId : String
  name : String
  identifier : String
  user : String
  memoryUsed : Int
deriving Repr, DecidableEq

/-- `IFileEntry`: local record of one remote object. -/
structure FileEntry where
  mongoId : String
  name : String
  user : String
  identifier : String
  bucketId : String
  bucketName : String
  created : Nat
  numDownloads : Int
  size : Int
  isPublic : Bool
  publicURL : String
  mimeType : String
deriving Repr, DecidableEq

/-- A multipart upload part: `{filename, headers["content-type"], byteCount}`.
`byteCount` is the byte count declared by the part's headers; the number of
bytes actually moved by the stream is carried separately by `StreamEvent`. -/
structure UploadPart where
  filename : String
  contentType : String
  byteCount : Int
deriving Repr, DecidableEq

/-- The three mongo collections the manager touches. -/
structure DB where
  buckets : List BucketEntry
  files : List FileEntry
  stats : List StorageStats
deriving Repr, DecidableEq

/-- The remote object store: containers, and (container, objectId) pairs. -/
structure Remote where
  containers : List String
  objects : List (String × String)
deriving Repr, DecidableEq

/-- One external call made by the manager, for the effect trace. -/
inductive Eff where
  | findOneStats (user : String)
  | findOneBucket (identifier : String)
  | findFiles
  | findBuckets
  | remoteDeleteObject (container object : String)
  | remoteDeleteContainer (container : String)
  | remoteCreateObject (container object : String)
  | remoteMakePublic (container object : String)
  | remoteMakePrivate (container object : String)
  | bucketMemInc (identifier : String) (delta : Int)
  | bucketRemove (mongoId : String)
  | fileRemove (mongoId : String)
  | fileSave (identifier : String)
  | fileNameSet (mongoId : String) (name : String)
  | filePublicSet (identifier : String) (isPublic : Bool)
  | statsInc (user : String) (memDelta apiDelta : Int)
deriving Repr, DecidableEq

/-- How a promise ends up.  `hung` is a promise on which neither resolve nor
reject is ever called; `crashed` is an uncaught exception inside a callback. -/
inductive PResult (α : Type) where
  | resolved (a : α)
  | rejected (e : String)
  | hung
  | crashed (e : String)
deriving Repr, DecidableEq

/-- Result of running one manager operation: the stores afterwards, the calls
made (in order), and how the returned promise settles. -/
structure Outcome (α : Type) where
  db : DB
  remote : Remote
  trace : List Eff
  result : PResult α
deriving Repr, DecidableEq

/-- Fault injection: each field tells whether the corresponding external call
reports an error (callbacks receive a truthy `err`).  Keyed fields let faults
differ between the items of a batch.  `compressibleType` stands for the
`compressible` library's classification of a mime type. -/
structure Env where
  statsFindErr : Bool
  bucketFindErr : Bool
  filesFindErr : Bool
  filesToArrayErr : Bool
  bucketsFindErr : Bool
  bucketsToArrayErr : Bool
  remoteDeleteObjectErr : String → Bool
  remoteDeleteContainerErr : String → Bool
  bucketMemUpdateErr : String → Bool
  bucketRemoveErr : String → Bool
  fileRemoveErr : String → Bool
  statsUpdateErr : String → Bool
  fileSaveErr : Bool
  fileNameUpdateErr : Bool
  filePublicUpdateErr : Bool
  remoteMakePublicErr : Bool
  remoteMakePrivateErr : Bool
  compressibleType : String → Bool

/-- The all-healthy environment: no external call fails. -/
def Env.ok : Env :=
  ⟨false, false, false, false, false, false,
   fun _ => false, fun _ => false, fun _ => false, fun _ => false,
   fun _ => false, fun _ => false, false, false, false, false, false,
   fun _ => false⟩

/-- Mongo `update(query, modifier)`: apply `g` to every matching document. -/
def updateWhere {α : Type} (p : α → Bool) (g : α → α) (l : List α) : List α :=
  l.map fun x => if p x then g x else x

/-- `stats.findOne({user})`. -/
def DB.findOneStats (db : DB) (user : String) : Option StorageStats :=
  db.stats.find? fun s => s.user = user

/-- `bucketCollection.findOne({identifier})` (the `getIBucket(id)` query). -/
def DB.findOneBucketByIdentifier (db : DB) (identifier : String) : Option BucketEntry :=
  db.buckets.find? fun b => b.identifier = identifier

/-- `bucketCollection.update({identifier}, {$inc: {memoryUsed: delta}})`. -/
def DB.updateBucketMem (db : DB) (identifier : String) (delta : Int) : DB :=
  let bs := updateWhere (fun b => b.identifier = identifier)
    (fun b => { b with memoryUsed := b.memoryUsed + delta }) db.buckets
  { db with buckets := bs }

/-- `stats.update({user}, {$inc: {memoryUsed: memDelta, apiCallsUsed: apiDelta}})`. -/
def DB.updateStatsInc (db : DB) (user : String) (memDelta apiDelta : Int) : DB :=
  let ss := updateWhere (fun s => s.user = user)
    (fun s => { s with memoryUsed := s.memoryUsed + memDelta, apiCallsUsed := s.apiCallsUsed + apiDelta }) db.stats
  { db with stats := ss }

/-- `files.remove({_id})`. -/
def DB.removeFileById (db : DB) (mongoId : String) : DB :=
  { db with files := db.files.filter fun f => f.mongoId ≠ mongoId }

/-- `bucketCollection.remove({_id})`. -/
def DB.removeBucketById (db : DB) (mongoId : String) : DB :=
  { db with buckets := db.buckets.filter fun b => b.mongoId ≠ mongoId }

/-- `files.update({_id}, {$set: {name}})`. -/
def DB.setFileName (db : DB) (mongoId : String) (name : String) : DB :=
  let fs := updateWhere (fun f => f.mongoId = mongoId)
    (fun f => { f with name := name }) db.files
  { db with files := fs }

/-- `files.update({bucketId, identifier}, {$set: {isPublic}})`. -/
def DB.setFilePublic (db : DB) (bucketId identifier : String) (isPublic : Bool) : DB :=
  let fs := updateWhere (fun f => f.bucketId = bucketId && f.identifier = identifier)
    (fun f => { f with isPublic := isPublic }) db.files
  { db with files := fs }

/-- `files.save(entry)`. -/
def DB.addFile (db : DB) (f : FileEntry) : DB :=
  { db with files := db.files ++ [f] }

/-- Remote `bucket(c).file(o).delete()`, state effect. -/
def Remote.deleteObject (r : Remote) (container object : String) : Remote :=
  { r with objects := r.objects.filter fun co => co ≠ (container, object) }

/-- Remote `bucket(c).delete()`, state effect. -/
def Remote.deleteContainer (r : Remote) (container : String) : Remote :=
  { r with containers := r.containers.filter fun c => c ≠ container }

/-- A finished upload stream has written its object. -/
def Remote.addObject (r : Remote) (container object : String) : Remote :=
  { r with objects := r.objects ++ [(container, object)] }

/-- Quota error message for memory (source line 641). -/
def memLimitMsg : String :=
  "You do not have enough memory allocated. Please upgrade your account for more memory"

/-- Quota error message for API calls (source line 638). -/
def apiLimitMsg : String :=
  "You have reached your API call limit. Please upgrade your plan for more API calls"

/-- Message of the TypeError raised when `canUpload` reads `result.memoryUsed`
off the `null` that `findOne` yields for a user with no stats record. -/
def nullStatsCrashMsg : String :=
  "TypeError: Cannot read property memoryUsed of null"

/-- How the promise of `canUpload(user, part)` (source lines 620-644)
settles: the callback checks the memory quota strictly, then the API-call
quota strictly, and resolves with the loaded record.  It reads
`result.memoryUsed` without a null check, so a missing record throws inside
the callback (`crashed`) instead of rejecting. -/
def canUploadResult (env : Env) (db : DB) (user : String) (part : UploadPart) :
    PResult StorageStats :=
  if env.statsFindErr then .rejected "ERR"
  else
    match db.findOneStats user with
    | none => .crashed nullStatsCrashMsg
    | some s =>
      if s.memoryUsed + part.byteCount < s.memoryAllocated then
        if s.apiCallsUsed + 1 < s.apiCallsAllocated then .resolved s
        else .rejected apiLimitMsg
      else .rejected memLimitMsg

/-- `canUpload(user, part)`: the one `stats.findOne` call, and the outcome. -/
def canUpload (env : Env) (db : DB) (user : String) (part : UploadPart) :
    List Eff × PResult StorageStats :=
  ([.findOneStats user], canUploadResult env db user part)

/-- How the promise of `withinAPILimit(user)` (source lines 651-670)
settles: a missing record rejects, otherwise it resolves with whether one
more call stays strictly under the allocation. -/
def withinAPILimitResult (env : Env) (db : DB) (user : String) : PResult Bool :=
  if env.statsFindErr then .rejected "ERR"
  else
    match db.findOneStats user with
    | none => .rejected ("Could not find the user " ++ user)
    | some s =>
      if s.apiCallsUsed + 1 < s.apiCallsAllocated then .resolved true
      else .resolved false

/-- `withinAPILimit(user)`: the one `stats.findOne` call, and the outcome. -/
def withinAPILimit (env : Env) (db : DB) (user : String) :
    List Eff × PResult Bool :=
  ([.findOneStats user], withinAPILimitResult env db user)

/-- Rejection message shared by every failing step of `deleteFile`
(source lines 457, 463, 469, 475); `ERR` stands for `err.toString()`. -/
def deleteFileErrMsg (identifier : String) : String :=
  "Could not remove file " ++ identifier ++ " from storage system: ERR"

/-- `deleteFile(fileEntry)` (source lines 436-489): resolve the owning bucket,
delete the remote object, decrement the bucket byte counter, remove the local
file record, then decrement the stats byte counter and charge one API call.
Each callback checks its `err` and rejects, aborting the remaining steps. -/
def deleteFile (env : Env) (db : DB) (r : Remote) (f : FileEntry) :
    Outcome FileEntry :=
  let tr0 : List Eff := [.findOneBucket f.bucketId]
  if env.bucketFindErr then ⟨db, r, tr0, .rejected "ERR"⟩
  else
    match db.findOneBucketByIdentifier f.bucketId with
    | none => ⟨db, r, tr0, .rejected ("Could not find the bucket " ++ f.bucketName)⟩
    | some b =>
      let tr1 := tr0 ++ [.remoteDeleteObject b.identifier f.identifier]
      if env.remoteDeleteObjectErr f.identifier then
        ⟨db, r, tr1, .rejected (deleteFileErrMsg f.identifier)⟩
      else
        let r1 := r.deleteObject b.identifier f.identifier
        let tr2 := tr1 ++ [.bucketMemInc b.identifier (-f.size)]
        if env.bucketMemUpdateErr b.identifier then
          ⟨db, r1, tr2, .rejected (deleteFileErrMsg f.identifier)⟩
        else
          let db1 := db.updateBucketMem b.identifier (-f.size)
          let tr3 := tr2 ++ [.fileRemove f.mongoId]
          if env.fileRemoveErr f.mongoId then
            ⟨db1, r1, tr3, .rejected (deleteFileErrMsg f.identifier)⟩
          else
            let db2 := db1.removeFileById f.mongoId
            let tr4 := tr3 ++ [.statsInc b.user (-f.size) 1]
            if env.statsUpdateErr b.user then
              ⟨db2, r1, tr4, .rejected (deleteFileErrMsg f.identifier)⟩
            else
              ⟨db2.updateStatsInc b.user (-f.size) 1, r1, tr4, .resolved f⟩

/-- The per-item loop of `removeFiles` (source lines 517-534): each matched
entry is handed to `deleteFile`; a success pushes `fileEntry.identifier`, a
rejection is swallowed (only the attempt counter moves). -/
def runFileDeletes (env : Env) :
    List FileEntry → DB → Remote → DB × Remote × List Eff × List String
  | [], db, r => (db, r, [], [])
  | f :: rest, db, r =>
    let o := deleteFile env db r f
    let rr := runFileDeletes env rest o.db o.remote
    match o.result with
    | .resolved fe => (rr.1, rr.2.1, o.trace ++ rr.2.2.1, fe.identifier :: rr.2.2.2)
    | _ => (rr.1, rr.2.1, o.trace ++ rr.2.2.1, rr.2.2.2)

/-- `removeFiles(searchQuery)` (source lines 496-541).  The `find` error is
checked and rejects; the `toArray` error is not checked, so it crashes the
callback (reading `length` of `undefined`).  An empty match resolves `[]`;
otherwise per-item failures are swallowed and only successes are reported. -/
def removeFiles (env : Env) (db : DB) (r : Remote) (q : FileEntry → Bool) :
    Outcome (Option (List String)) :=
  let tr0 : List Eff := [.findFiles]
  if env.filesFindErr then ⟨db, r, tr0, .rejected "ERR"⟩
  else if env.filesToArrayErr then
    ⟨db, r, tr0, .crashed "TypeError: Cannot read property length of undefined"⟩
  else
    let matched := db.files.filter q
    if matched.isEmpty then ⟨db, r, tr0, .resolved (some [])⟩
    else
      let rr := runFileDeletes env matched db r
      ⟨rr.1, rr.2.1, tr0 ++ rr.2.2.1, .resolved (some rr.2.2.2)⟩

/-- The `{$or: [{identifier: id}, ...], user?}` query of `removeFilesById`. -/
def fileIdQuery (fileIDs : List String) (user : Option String) (f : FileEntry) : Bool :=
  (fileIDs.any fun i => f.identifier = i) &&
    (match user with | none => true | some u => f.user = u)

/-- `removeFilesById(fileIDs, user?)` (source lines 549-563): an empty id list
returns `Promise.resolve()` at once — resolved with `undefined` (here `none`),
before any query is built or any call is made. -/
def removeFilesById (env : Env) (db : DB) (r : Remote)
    (fileIDs : List String) (user : Option String) :
    Outcome (Option (List String)) :=
  if fileIDs.length = 0 then ⟨db, r, [], .resolved none⟩
  else removeFiles env db r (fileIdQuery fileIDs user)

/-- The `{$or: [{bucketId: bucket}, {bucketName: bucket}]}` query. -/
def bucketFileQuery (bucket : String) (f : FileEntry) : Bool :=
  f.bucketId = bucket || f.bucketName = bucket

/-- The `!bucket || bucket.trim() == ""` validity test of
`removeFilesByBucket`: the name is empty (falsy) or entirely whitespace. -/
def blankString (s : String) : Bool :=
  s.data.all Char.isWhitespace

/-- `removeFilesByBucket(bucket)` (source lines 570-578). -/
def removeFilesByBucket (env : Env) (db : DB) (r : Remote) (bucket : String) :
    Outcome (Option (List String)) :=
  if blankString bucket then ⟨db, r, [], .rejected "Please specify a valid bucket"⟩
  else removeFiles env db r (bucketFileQuery bucket)

/-- `deleteBucket(bucketEntry)` (source lines 395-431): delete the bucket's
files, then the remote container, then the local entry, then charge an API
call.  The two rejecting paths are a failed file phase (wrapped by the
`.catch`) and a failed remote container delete; the `bucketCollection.remove`
and `stats.update` callbacks ignore their `err` and always continue, so those
two steps' failures never reject.  A crashed file phase leaves the promise
unsettled. -/
def deleteBucket (env : Env) (db : DB) (r : Remote) (b : BucketEntry) :
    Outcome BucketEntry :=
  let o := removeFilesByBucket env db r b.identifier
  match o.result with
  | .rejected e =>
    ⟨o.db, o.remote, o.trace, .rejected ("Could not remove the bucket: " ++ e)⟩
  | .crashed _ => ⟨o.db, o.remote, o.trace, .hung⟩
  | .hung => ⟨o.db, o.remote, o.trace, .hung⟩
  | .resolved _ =>
    let tr1 := o.trace ++ [.remoteDeleteContainer b.identifier]
    if env.remoteDeleteContainerErr b.identifier then
      ⟨o.db, o.remote, tr1, .rejected "Could not remove bucket from storage system: ERR"⟩
    else
      let r1 := o.remote.deleteContainer b.identifier
      let tr2 := tr1 ++ [.bucketRemove b.mongoId]
      let db1 := if env.bucketRemoveErr b.mongoId then o.db
                 else o.db.removeBucketById b.mongoId
      let tr3 := tr2 ++ [.statsInc b.user 0 1]
      let db2 := if env.statsUpdateErr b.user then db1
                 else db1.updateStatsInc b.user 0 1
      ⟨db2, r1, tr3, .resolved b⟩

/-- The per-item loop of `removeBuckets` (source lines 338-353): each matched
bucket is handed to `deleteBucket`; a success pushes `bucket.identifier`, a
rejection is swallowed. -/
def runBucketDeletes (env : Env) :
    List BucketEntry → DB → Remote → DB × Remote × List Eff × List String
  | [], db, r => (db, r, [], [])
  | b :: rest, db, r =>
    let o := deleteBucket env db r b
    let rr := runBucketDeletes env rest o.db o.remote
    match o.result with
    | .resolved be => (rr.1, rr.2.1, o.trace ++ rr.2.2.1, be.identifier :: rr.2.2.2)
    | _ => (rr.1, rr.2.1, o.trace ++ rr.2.2.1, rr.2.2.2)

/-- `removeBuckets(searchQuery)` (source lines 314-361): both the `find` and
the `toArray` errors are checked and reject; an empty match resolves `[]`;
per-item failures are swallowed and only successes are reported. -/
def removeBuckets (env : Env) (db : DB) (r : Remote) (q : BucketEntry → Bool) :
    Outcome (Option (List String)) :=
  let tr0 : List Eff := [.findBuckets]
  if env.bucketsFindErr then ⟨db, r, tr0, .rejected "ERR"⟩
  else if env.bucketsToArrayErr then ⟨db, r, tr0, .rejected "ERR"⟩
  else
    let matched := db.buckets.filter q
    if matched.isEmpty then ⟨db, r, tr0, .resolved (some [])⟩
    else
      let rr := runBucketDeletes env matched db r
      ⟨rr.1, rr.2.1, tr0 ++ rr.2.2.1, .resolved (some rr.2.2.2)⟩

/-- The `{$or: [{name: n}, ...], user}` query of `removeBucketsByName`. -/
def bucketNameQuery (names : List String) (user : String) (b : BucketEntry) : Bool :=
  (names.any fun n => b.name = n) && b.user = user

/-- `removeBucketsByName(buckets, user)` (source lines 369-380): an empty name
list returns `Promise.resolve()` at once — resolved with `undefined` (here
`none`), before any query is built or any call is made. -/
def removeBucketsByName (env : Env) (db : DB) (r : Remote)
    (buckets : List String) (user : String) :
    Outcome (Option (List String)) :=
  if buckets.length = 0 then ⟨db, r, [], .resolved none⟩
  else removeBuckets env db r (bucketNameQuery buckets user)

/-- How the upload's stream run ends: `completes` carries the number of bytes
the stream actually moved (the source never reads this quantity; it is
recorded so that claims about it can be stated), `streamError` is an error on
the write stream, `sourceError` is an error event on the inbound part. -/
inductive StreamEvent where
  | completes (actualBytes : Int)
  | streamError
  | sourceError
deriving Repr, DecidableEq

/-- The `IFileEntry` built by `registerFile` (source lines 788-818).  Mongo
generates `_id`; it is modelled as the object identifier, which the claims
never inspect. -/
def registeredEntry (fileID : String) (bucket : BucketEntry) (part : UploadPart)
    (user : String) (isPublic : Bool) (now : Nat) : FileEntry :=
  { mongoId := fileID
    name := part.filename
    user := user
    identifier := fileID
    bucketId := bucket.identifier
    bucketName := bucket.name
    created := now
    numDownloads := 0
    size := part.byteCount
    isPublic := isPublic
    publicURL := "https://storage.googleapis.com/" ++ bucket.identifier ++ "/" ++ fileID
    mimeType := part.contentType }

/-- `uploadStream(part, bucketEntry, user, makePublic)` (source lines
839-916).  `fileID` stands for the random 16-character object key and `now`
for `Date.now()`.  After the quota gate the part is piped (through gzip when
`compressible(content-type)`) into the remote write stream; on the stream's
`complete` event the bucket and stats counters are incremented by the part's
declared `byteCount`, both update callbacks ignoring their `err`, then the
file is registered and optionally made public. -/
def uploadStream (env : Env) (db : DB) (r : Remote) (part : UploadPart)
    (bucketEntry : BucketEntry) (user : String) (makePublic : Bool)
    (fileID : String) (now : Nat) (ev : StreamEvent) : Outcome FileEntry :=
  let c := canUpload env db user part
  match c.2 with
  | .rejected e => ⟨db, r, c.1, .rejected e⟩
  | .crashed m => ⟨db, r, c.1, .crashed m⟩
  | .hung => ⟨db, r, c.1, .hung⟩
  | .resolved _ =>
    match ev with
    | .sourceError =>
      let tr := c.1 ++ [.remoteDeleteObject bucketEntry.identifier fileID]
      if env.remoteDeleteObjectErr fileID then
        ⟨db, r, tr, .rejected "While uploading a user part an error occurred while cleaning the bucket: ERR"⟩
      else ⟨db, r, tr, .rejected "Could not upload a user part: ERR"⟩
    | .streamError =>
      ⟨db, r, c.1, .rejected ("Could not upload the file " ++ part.filename ++ " to bucket: ERR")⟩
    | .completes _ =>
      let r1 := r.addObject bucketEntry.identifier fileID
      let tr1 := c.1 ++ [.remoteCreateObject bucketEntry.identifier fileID,
                         .bucketMemInc bucketEntry.identifier part.byteCount]
      let db1 := if env.bucketMemUpdateErr bucketEntry.identifier then db
                 else db.updateBucketMem bucketEntry.identifier part.byteCount
      let tr2 := tr1 ++ [.statsInc user part.byteCount 1]
      let db2 := if env.statsUpdateErr user then db1
                 else db1.updateStatsInc user part.byteCount 1
      let entry := registeredEntry fileID bucketEntry part user makePublic now
      let tr3 := tr2 ++ [.fileSave fileID]
      if env.fileSaveErr then ⟨db2, r1, tr3, .rejected "Could not save user file entry: ERR"⟩
      else
        let db3 := db2.addFile entry
        if makePublic then
          let tr4 := tr3 ++ [.remoteMakePublic bucketEntry.identifier fileID]
          if env.remoteMakePublicErr then ⟨db3, r1, tr4, .rejected "ERR"⟩
          else ⟨db3, r1, tr4, .resolved entry⟩
        else ⟨db3, r1, tr3, .resolved entry⟩

/-- `renameFile(file, name)` (source lines 954-973): `incrementAPI(file.user)`
first, then `files.update({_id}, {$set: {name}})`.  A failed increment rejects
the inner promise, which has no rejection handler, so the outer promise is
never settled (`hung`). -/
def renameFile (env : Env) (db : DB) (r : Remote) (f : FileEntry) (name : String) :
    Outcome FileEntry :=
  let tr0 : List Eff := [.statsInc f.user 0 1]
  if env.statsUpdateErr f.user then ⟨db, r, tr0, .hung⟩
  else
    let db1 := db.updateStatsInc f.user 0 1
    let tr1 := tr0 ++ [.fileNameSet f.mongoId name]
    if env.fileNameUpdateErr then ⟨db1, r, tr1, .rejected "ERR"⟩
    else ⟨db1.setFileName f.mongoId name, r, tr1, .resolved f⟩

/-- `makeFilePublic(file)` (source lines 699-735).  Any rejection of the
`withinAPILimit`/`incrementAPI` chain — including the intended
`Promise.reject(new Error("You do not have enough API calls left..."))` when
the limit check returns false — reaches the `.catch` handler, which evaluates
`new err`; applying a caught `Error` value as a constructor throws a
TypeError, so `reject` is never reached and the outer promise stays unsettled
(`hung`).  Only the later remote `makePublic` and `files.update` callbacks
reject the outer promise directly. -/
def makeFilePublic (env : Env) (db : DB) (r : Remote) (f : FileEntry) :
    Outcome FileEntry :=
  let w := withinAPILimit env db f.user
  match w.2 with
  | .rejected _ => ⟨db, r, w.1, .hung⟩
  | .crashed m => ⟨db, r, w.1, .crashed m⟩
  | .hung => ⟨db, r, w.1, .hung⟩
  | .resolved ok =>
    if !ok then ⟨db, r, w.1, .hung⟩
    else
      let tr1 := w.1 ++ [.statsInc f.user 0 1]
      if env.statsUpdateErr f.user then ⟨db, r, tr1, .hung⟩
      else
        let db1 := db.updateStatsInc f.user 0 1
        let tr2 := tr1 ++ [.remoteMakePublic f.bucketId f.identifier]
        if env.remoteMakePublicErr then ⟨db1, r, tr2, .rejected "ERR"⟩
        else
          let tr3 := tr2 ++ [.filePublicSet f.identifier true]
          if env.filePublicUpdateErr then ⟨db1, r, tr3, .rejected "ERR"⟩
          else ⟨db1.setFilePublic f.bucketId f.identifier true, r, tr3, .resolved f⟩

/-- `makeFilePrivate(file)` (source lines 742-778): same shape as
`makeFilePublic`, with the remote `makePrivate` call and `isPublic: false`;
its `.catch` handler has the same `new err` fault. -/
def makeFilePrivate (env : Env) (db : DB) (r : Remote) (f : FileEntry) :
    Outcome FileEntry :=
  let w := withinAPILimit env db f.user
  match w.2 with
  | .rejected _ => ⟨db, r, w.1, .hung⟩
  | .crashed m => ⟨db, r, w.1, .crashed m⟩
  | .hung => ⟨db, r, w.1, .hung⟩
  | .resolved ok =>
    if !ok then ⟨db, r, w.1, .hung⟩
    else
      let tr1 := w.1 ++ [.statsInc f.user 0 1]
      if env.statsUpdateErr f.user then ⟨db, r, tr1, .hung⟩
      else
        let db1 := db.updateStatsInc f.user 0 1
        let tr2 := tr1 ++ [.remoteMakePrivate f.bucketId f.identifier]
        if env.remoteMakePrivateErr then ⟨db1, r, tr2, .rejected "ERR"⟩
        else
          let tr3 := tr2 ++ [.filePublicSet f.identifier false]
          if env.filePublicUpdateErr then ⟨db1, r, tr3, .rejected "ERR"⟩
          else ⟨db1.setFilePublic f.bucketId f.identifier false, r, tr3, .resolved f⟩

/-- One transform stage of the download pipe: `that._unzipper` (gunzip) or
`that._deflater` (deflate compression). -/
inductive Stage where
  | unzip
  | deflate
deriving Repr, DecidableEq

/-- What `downloadFile` writes back: the HTTP status (500 on metadata read
failure, otherwise the default 200), the `content-encoding` header if one was
set, and the transform stages the stored bytes are piped through, in order
(empty list = passthrough). -/
structure DownloadResponse where
  status : Nat
  contentEncoding : Option String
  pipeline : List Stage
deriving Repr, DecidableEq

/-- `downloadFile(request, response, file)` (source lines 982-1039).
`metaErr` is the `getMetadata` callback error; `meta` is the object's custom
metadata (`none` when absent, else its `encoded` flag); `acceptsGzip` and
`acceptsDeflate` are the results of matching the request's accept-encoding
header against `\bgzip\b` and `\bdeflate\b`.  The gzip test is made first. -/
def downloadFile (metaErr : Bool) (meta : Option Bool)
    (acceptsGzip acceptsDeflate : Bool) : DownloadResponse :=
  if metaErr then ⟨500, none, []⟩
  else
    let encoded := match meta with
      | none => false
      | some e => e
    if acceptsGzip then
      if encoded then ⟨200, some "gzip", []⟩
      else ⟨200, none, []⟩
    else if acceptsDeflate then
      if encoded then ⟨200, some "deflate", [.unzip, .deflate]⟩
      else ⟨200, some "deflate", [.deflate]⟩
    else
      if encoded then ⟨200, none, [.unzip]⟩
      else ⟨200, none, []⟩

/-- Whether `deleteFile` resolves for `f` against `db` under `env`: the
owning bucket resolves and none of the four step calls fails. -/
def deleteFileSucceeds (env : Env) (db : DB) (f : FileEntry) : Bool :=
  !env.bucketFindErr &&
    match db.findOneBucketByIdentifier f.bucketId with
    | none => false
    | some b =>
      !env.remoteDeleteObjectErr f.identifier && !env.bucketMemUpdateErr b.identifier &&
        !env.fileRemoveErr f.mongoId && !env.statsUpdateErr b.user

/-- Whether `deleteBucket` resolves for `b` under `env`: the bucket name is
usable and the file phase and the remote container delete go through (the
local-entry removal and the counter increment cannot make it reject). -/
def deleteBucketSucceeds (env : Env) (b : BucketEntry) : Bool :=
  !blankString b.identifier && !env.filesFindErr && !env.filesToArrayErr &&
    !env.remoteDeleteContainerErr b.identifier

/-- Sample stats record (well under both quotas). -/
def sampleStats : StorageStats := ⟨"u", 10, 100, 3, 20⟩

/-- Sample stats record whose next API call reaches the allocation. -/
def maxedStats : StorageStats := ⟨"u", 10, 100, 19, 20⟩

/-- Sample bucket entry. -/
def sampleBucket : BucketEntry := ⟨"bid", "mybucket", "webinate-bucket-x", "u", 10⟩

/-- Sample file entry living in `sampleBucket`. -/
def sampleFile : FileEntry :=
  ⟨"fid", "photo", "u", "obj1", "webinate-bucket-x", "mybucket", 0, 0, 4, false, "url", "image/png"⟩

/-- Sample database holding the records above. -/
def sampleDB : DB := ⟨[sampleBucket], [sampleFile], [sampleStats]⟩

/-- Sample database whose user is at the API-call limit. -/
def maxedDB : DB := ⟨[sampleBucket], [sampleFile], [maxedStats]⟩

/-- A database with no records at all. -/
def emptyDB : DB := ⟨[], [], []⟩

/-- Sample remote store matching `sampleDB`. -/
def sampleRemote : Remote := ⟨["webinate-bucket-x"], [("webinate-bucket-x", "obj1")]⟩

/-- Sample upload part declaring five bytes. -/
def samplePart : UploadPart := ⟨"photo2", "image/png", 5⟩

/-- Environment in which removing a local bucket entry reports an error. -/
def envBucketRemoveFails : Env :=
  { Env.ok with bucketRemoveErr := fun _ => true }

/-- Environment in which every remote object delete reports an error. -/
def envObjDeleteFails : Env :=
  { Env.ok with remoteDeleteObjectErr := fun _ => true }

/-- A database holding the sample bucket (with no files) and sample stats. -/
def bucketOnlyDB : DB := ⟨[sampleBucket], [], [sampleStats]⟩

theorem find?_updateWhere {α : Type} (p q : α → Bool) (g : α → α)
    (hg : ∀ x, q (g x) = q x) (l : List α) :
    (updateWhere p g l).find? q = (l.find? q).map fun x => if p x then g x else x := by
  induction l with
  | nil => rfl
  | cons x xs ih =>
    have hq : q (if p x then g x else x) = q x := by
      by_cases hp : p x <;> simp [hp, hg]
    cases h : q x with
    | false =>
      rw [updateWhere, List.map_cons, List.find?_cons_of_neg _ (by simp [hq, h]),
        List.find?_cons_of_neg _ (by simp [h])]
      simpa [updateWhere] using ih
    | true =>
      rw [updateWhere, List.map_cons, List.find?_cons_of_pos _ (by simp [hq, h]),
        List.find?_cons_of_pos _ h]
      rfl

theorem findOneBucket_updateBucketMem (db : DB) (i : String) (d : Int) (q : String) :
    (db.updateBucketMem i d).findOneBucketByIdentifier q =
      (db.findOneBucketByIdentifier q).map
        fun b => if b.identifier = i then { b with memoryUsed := b.memoryUsed + d } else b := by
  have h := find?_updateWhere (fun b => b.identifier = i) (fun b => b.identifier = q)
    (fun b => { b with memoryUsed := b.memoryUsed + d }) (fun _ => rfl) db.buckets
  simp only [decide_eq_true_eq] at h
  exact h

theorem findOneStats_updateStatsInc (db : DB) (u : String) (m a : Int) (q : String) :
    (db.updateStatsInc u m a).findOneStats q =
      (db.findOneStats q).map
        fun s => if s.user = u then
          { s with memoryUsed := s.memoryUsed + m, apiCallsUsed := s.apiCallsUsed + a }
        else s := by
  have h := find?_updateWhere (fun s => s.user = u) (fun s => s.user = q)
    (fun s => { s with memoryUsed := s.memoryUsed + m, apiCallsUsed := s.apiCallsUsed + a })
    (fun _ => rfl) db.stats
  simp only [decide_eq_true_eq] at h
  exact h

theorem findOneStats_updateStatsInc_self (db : DB) (u : String) (m a : Int)
    (s : StorageStats) (h : db.findOneStats u = some s) :
    (db.updateStatsInc u m a).findOneStats u =
      some { s with memoryUsed := s.memoryUsed + m, apiCallsUsed := s.apiCallsUsed + a } := by
  have hu : s.user = u := by
    have := List.find?_some h
    simpa using this
  rw [findOneStats_updateStatsInc, h]
  simp [hu]

theorem findOneBucket_updateBucketMem_self (db : DB) (i : String) (d : Int)
    (b : BucketEntry) (h : db.findOneBucketByIdentifier i = some b) :
    (db.updateBucketMem i d).findOneBucketByIdentifier i =
      some { b with memoryUsed := b.memoryUsed + d } := by
  have hi : b.identifier = i := by
    have := List.find?_some h
    simpa using this
  rw [findOneBucket_updateBucketMem, h]
  simp [hi]

theorem findOneStats_updateBucketMem (db : DB) (i : String) (d : Int) (q : String) :
    (db.updateBucketMem i d).findOneStats q = db.findOneStats q := rfl

theorem findOneStats_removeFileById (db : DB) (m : String) (q : String) :
    (db.removeFileById m).findOneStats q = db.findOneStats q := rfl

theorem findOneStats_addFile (db : DB) (f : FileEntry) (q : String) :
    (db.addFile f).findOneStats q = db.findOneStats q := rfl

theorem findOneStats_setFileName (db : DB) (m n : String) (q : String) :
    (db.setFileName m n).findOneStats q = db.findOneStats q := rfl

theorem findOneBucket_updateStatsInc (db : DB) (u : String) (m a : Int) (q : String) :
    (db.updateStatsInc u m a).findOneBucketByIdentifier q = db.findOneBucketByIdentifier q := rfl

theorem findOneBucket_removeFileById (db : DB) (m : String) (q : String) :
    (db.removeFileById m).findOneBucketByIdentifier q = db.findOneBucketByIdentifier q := rfl

theorem findOneBucket_addFile (db : DB) (f : FileEntry) (q : String) :
    (db.addFile f).findOneBucketByIdentifier q = db.findOneBucketByIdentifier q := rfl

theorem deleteFile_result_succeeds (env : Env) (db : DB) (r : Remote) (f : FileEntry)
    (h : deleteFileSucceeds env db f = true) :
    (deleteFile env db r f).result = .resolved f := by
  unfold deleteFileSucceeds at h
  cases hb : db.findOneBucketByIdentifier f.bucketId with
  | none => rw [hb] at h; simp at h
  | some b =>
    rw [hb] at h
    simp only [Bool.and_eq_true, Bool.not_eq_true'] at h
    obtain ⟨h0, ⟨⟨h1, h2⟩, h3⟩, h4⟩ := h
    simp [deleteFile, h0, hb, h1, h2, h3, h4]

theorem deleteFile_result_fails (env : Env) (db : DB) (r : Remote) (f : FileEntry)
    (h : deleteFileSucceeds env db f = false) :
    ∀ x, (deleteFile env db r f).result ≠ .resolved x := by
  intro x
  unfold deleteFileSucceeds at h
  cases hb : db.findOneBucketByIdentifier f.bucketId with
  | none =>
    cases h0 : env.bucketFindErr with
    | true => simp [deleteFile, h0]
    | false => simp [deleteFile, h0, hb]
  | some b =>
    rw [hb] at h
    cases h0 : env.bucketFindErr with
    | true => simp [deleteFile, h0]
    | false =>
      rw [h0] at h
      simp only [Bool.not_false, Bool.true_and, Bool.and_eq_false_iff,
        Bool.not_eq_false'] at h
      rcases h with ((h1 | h2) | h3) | h4
      · simp [deleteFile, h0, hb, h1]
      · by_cases h1 : env.remoteDeleteObjectErr f.identifier <;>
          simp [deleteFile, h0, hb, h1, h2]
      · by_cases h1 : env.remoteDeleteObjectErr f.identifier <;>
          by_cases h2 : env.bucketMemUpdateErr b.identifier <;>
          simp [deleteFile, h0, hb, h1, h2, h3]
      · by_cases h1 : env.remoteDeleteObjectErr f.identifier <;>
          by_cases h2 : env.bucketMemUpdateErr b.identifier <;>
          by_cases h3 : env.fileRemoveErr f.mongoId <;>
          simp [deleteFile, h0, hb, h1, h2, h3, h4]

theorem deleteFileSucceeds_updateBucketMem (env : Env) (db : DB) (i : String) (d : Int)
    (g : FileEntry) :
    deleteFileSucceeds env (db.updateBucketMem i d) g = deleteFileSucceeds env db g := by
  unfold deleteFileSucceeds
  rw [findOneBucket_updateBucketMem]
  cases db.findOneBucketByIdentifier g.bucketId with
  | none => rfl
  | some b => by_cases hb : b.identifier = i <;> simp [hb]

theorem deleteFileSucceeds_stable (env : Env) (db : DB) (r : Remote) (f g : FileEntry) :
    deleteFileSucceeds env (deleteFile env db r f).db g = deleteFileSucceeds env db g := by
  unfold deleteFile
  cases h0 : env.bucketFindErr with
  | true => simp
  | false =>
    simp only [Bool.false_eq_true, if_false]
    cases hb : db.findOneBucketByIdentifier f.bucketId with
    | none => rfl
    | some b =>
      cases h1 : env.remoteDeleteObjectErr f.identifier with
      | true => simp
      | false =>
        simp only [Bool.false_eq_true, if_false]
        cases h2 : env.bucketMemUpdateErr b.identifier with
        | true => simp
        | false =>
          simp only [Bool.false_eq_true, if_false]
          cases h3 : env.fileRemoveErr f.mongoId with
          | true => simpa using deleteFileSucceeds_updateBucketMem env db b.identifier (-f.size) g
          | false =>
            simp only [Bool.false_eq_true, if_false]
            cases h4 : env.statsUpdateErr b.user with
            | true => simpa using deleteFileSucceeds_updateBucketMem env db b.identifier (-f.size) g
            | false =>
              simpa using deleteFileSucceeds_updateBucketMem env db b.identifier (-f.size) g

theorem runFileDeletes_ids (env : Env) :
    ∀ (fs : List FileEntry) (db : DB) (r : Remote),
      (runFileDeletes env fs db r).2.2.2 =
        (fs.filter fun f => deleteFileSucceeds env db f).map FileEntry.identifier := by
  intro fs
  induction fs with
  | nil => intro db r; rfl
  | cons f rest ih =>
    intro db r
    have hfilter : (rest.filter fun g => deleteFileSucceeds env (deleteFile env db r f).db g)
        = rest.filter fun g => deleteFileSucceeds env db g :=
      List.filter_congr fun g _ => deleteFileSucceeds_stable env db r f g
    cases hs : deleteFileSucceeds env db f with
    | true =>
      have hres := deleteFile_result_succeeds env db r f hs
      simp only [runFileDeletes, hres, List.filter_cons, hs, if_true]
      simp [ih, hfilter]
    | false =>
      have hres := deleteFile_result_fails env db r f hs
      simp only [List.filter_cons, hs, Bool.false_eq_true, if_false]
      cases hr : (deleteFile env db r f).result with
      | resolved x => exact absurd hr (hres x)
      | rejected e =>
        simp only [runFileDeletes, hr]
        simp [ih, hfilter]
      | hung =>
        simp only [runFileDeletes, hr]
        simp [ih, hfilter]
      | crashed m =>
        simp only [runFileDeletes, hr]
        simp [ih, hfilter]

theorem removeFiles_result (env : Env) (db : DB) (r : Remote) (q : FileEntry → Bool)
    (h1 : env.filesFindErr = false) (h2 : env.filesToArrayErr = false) :
    (removeFiles env db r q).result =
      .resolved (some (((db.files.filter q).filter fun f => deleteFileSucceeds env db f).map
        FileEntry.identifier)) := by
  unfold removeFiles
  simp only [h1, h2, Bool.false_eq_true, if_false]
  cases he : (db.files.filter q).isEmpty with
  | true =>
    have hnil : db.files.filter q = [] := by simpa using he
    simp [he, hnil]
  | false =>
    simp [he, runFileDeletes_ids]

theorem deleteBucket_result_succeeds (env : Env) (db : DB) (r : Remote) (b : BucketEntry)
    (h : deleteBucketSucceeds env b = true) :
    (deleteBucket env db r b).result = .resolved b := by
  unfold deleteBucketSucceeds at h
  simp only [Bool.and_eq_true, Bool.not_eq_true'] at h
  obtain ⟨⟨⟨hbl, hff⟩, hta⟩, hdc⟩ := h
  have hr := removeFiles_result env db r (bucketFileQuery b.identifier) hff hta
  simp [deleteBucket, removeFilesByBucket, hbl, hr, hdc]

theorem deleteBucket_result_fails (env : Env) (db : DB) (r : Remote) (b : BucketEntry)
    (h : deleteBucketSucceeds env b = false) :
    ∀ x, (deleteBucket env db r b).result ≠ .resolved x := by
  intro x
  unfold deleteBucketSucceeds at h
  cases hbl : blankString b.identifier with
  | true => simp [deleteBucket, removeFilesByBucket, hbl]
  | false =>
    cases hff : env.filesFindErr with
    | true => simp [deleteBucket, removeFilesByBucket, removeFiles, hbl, hff]
    | false =>
      cases hta : env.filesToArrayErr with
      | true => simp [deleteBucket, removeFilesByBucket, removeFiles, hbl, hff, hta]
      | false =>
        have hdc : env.remoteDeleteContainerErr b.identifier = true := by
          rw [hbl, hff, hta] at h
          simpa using h
        have hr := removeFiles_result env db r (bucketFileQuery b.identifier) hff hta
        simp [deleteBucket, removeFilesByBucket, hbl, hr, hdc]

theorem runBucketDeletes_ids (env : Env) :
    ∀ (bs : List BucketEntry) (db : DB) (r : Remote),
      (runBucketDeletes env bs db r).2.2.2 =
        (bs.filter fun b => deleteBucketSucceeds env b).map BucketEntry.identifier := by
  intro bs
  induction bs with
  | nil => intro db r; rfl
  | cons b rest ih =>
    intro db r
    cases hs : deleteBucketSucceeds env b with
    | true =>
      have hres := deleteBucket_result_succeeds env db r b hs
      simp only [runBucketDeletes, hres, List.filter_cons, hs, if_true]
      simp [ih]
    | false =>
      have hres := deleteBucket_result_fails env db r b hs
      simp only [List.filter_cons, hs, Bool.false_eq_true, if_false]
      cases hr : (deleteBucket env db r b).result with
      | resolved y => exact absurd hr (hres y)
      | rejected e =>
        simp only [runBucketDeletes, hr]
        simp [ih]
      | hung =>
        simp only [runBucketDeletes, hr]
        simp [ih]
      | crashed m =>
        simp only [runBucketDeletes, hr]
        simp [ih]

theorem removeBuckets_result (env : Env) (db : DB) (r : Remote) (q : BucketEntry → Bool)
    (h3 : env.bucketsFindErr = false) (h4 : env.bucketsToArrayErr = false) :
    (removeBuckets env db r q).result =
      .resolved (some (((db.buckets.filter q).filter fun b => deleteBucketSucceeds env b).map
        BucketEntry.identifier)) := by
  unfold removeBuckets
  simp only [h3, h4, Bool.false_eq_true, if_false]
  cases he : (db.buckets.filter q).isEmpty with
  | true =>
    have hnil : db.buckets.filter q = [] := by simpa using he
    simp [he, hnil]
  | false =>
    simp [he, runBucketDeletes_ids]

/-- C4: `downloadFile` implements exactly the six-row content-encoding table
with the gzip test made before the deflate test; a compressed object to a
gzip-accepting client passes through with `content-encoding: gzip`; a raw
object to a gzip-accepting client passes through with no header; a client
that accepts deflate but not gzip always gets `content-encoding: deflate`
(gunzip then deflate when stored compressed, deflate alone when raw); a
client accepting neither gets the uncompressed bytes; at most one
decompression and one compression stage are ever applied; a metadata read
failure yields an HTTP 500 response, not a not-found. -/
theorem downloadFile_decision_table :
    (∀ d : Bool, downloadFile false (some true) true d = ⟨200, some "gzip", []⟩) ∧
    (∀ d : Bool, downloadFile false (some false) true d = ⟨200, none, []⟩) ∧
    downloadFile false (some true) false true = ⟨200, some "deflate", [.unzip, .deflate]⟩ ∧
    downloadFile false (some false) false true = ⟨200, some "deflate", [.deflate]⟩ ∧
    downloadFile false (some true) false false = ⟨200, none, [.unzip]⟩ ∧
    downloadFile false (some false) false false = ⟨200, none, []⟩ ∧
    (∀ g d : Bool, downloadFile false none g d = downloadFile false (some false) g d) ∧
    (∀ (m : Option Bool) (g d : Bool),
      (downloadFile false m g d).pipeline.count .unzip ≤ 1 ∧
        (downloadFile false m g d).pipeline.count .deflate ≤ 1) ∧
    (∀ (m : Option Bool) (g d : Bool),
      downloadFile true m g d = ⟨500, none, []⟩ ∧ (downloadFile true m g d).status ≠ 404) := by
  decide

/-- C7 counterexample: with an empty id list, `removeFilesById` and
`removeBucketsByName` return `Promise.resolve()`, a success carrying
`undefined` (`none`), which is not the empty success set `some []` the claim
describes. -/
theorem removeById_empty_resolves_undefined :
    (removeFilesById Env.ok sampleDB sampleRemote [] none).result = .resolved none ∧
    (removeFilesById Env.ok sampleDB sampleRemote [] none).result ≠ .resolved (some []) ∧
    (removeBucketsByName Env.ok sampleDB sampleRemote [] "u").result = .resolved none ∧
    (removeBucketsByName Env.ok sampleDB sampleRemote [] "u").result ≠ .resolved (some []) := by
  refine ⟨rfl, by decide, rfl, by decide⟩

/-- C7 (amended): for an empty input list, `removeFilesById` and
`removeBucketsByName` return an immediate success carrying an undefined
value (not an empty list), and they perform zero remote-store and zero
database calls and leave both stores untouched. -/
theorem removeById_empty_noop (env : Env) (db : DB) (r : Remote) (user : Option String)
    (u2 : String) :
    removeFilesById env db r [] user = ⟨db, r, [], .resolved none⟩ ∧
    removeBucketsByName env db r [] u2 = ⟨db, r, [], .resolved none⟩ :=
  ⟨rfl, rfl⟩

/-- C9: for a user with no stats record, the upload quota check does not
surface a not-found rejection: `findOne` hands the callback `null`, the
callback reads `result.memoryUsed` unconditionally, and the resulting
TypeError crashes inside the callback, so neither `canUpload` nor
`uploadStream` settles with any rejection and no store is touched. -/
theorem canUpload_missing_stats_crashes (env : Env) (db : DB) (r : Remote)
    (user : String) (part : UploadPart) (bucketEntry : BucketEntry) (makePublic : Bool)
    (fileID : String) (now : Nat) (ev : StreamEvent)
    (h1 : env.statsFindErr = false) (h2 : db.findOneStats user = none) :
    canUploadResult env db user part = .crashed nullStatsCrashMsg ∧
    (∀ e, canUploadResult env db user part ≠ .rejected e) ∧
    (uploadStream env db r part bucketEntry user makePublic fileID now ev).result
      = .crashed nullStatsCrashMsg ∧
    (uploadStream env db r part bucketEntry user makePublic fileID now ev).db = db := by
  have hc : canUploadResult env db user part = .crashed nullStatsCrashMsg := by
    unfold canUploadResult
    rw [h2]
    simp [h1]
  refine ⟨hc, by simp [hc], ?_, ?_⟩ <;> simp [uploadStream, canUpload, hc]

/-- C9 witness: the sample environment with an empty stats collection. -/
theorem canUpload_missing_stats_crashes_witness :
    Env.ok.statsFindErr = false ∧ emptyDB.findOneStats "u" = none ∧
    canUploadResult Env.ok emptyDB "u" samplePart = .crashed nullStatsCrashMsg :=
  ⟨rfl, by decide,
    (canUpload_missing_stats_crashes Env.ok emptyDB sampleRemote "u" samplePart
      sampleBucket true "fid" 0 .streamError rfl (by decide)).1⟩

/-- C10: for a file whose owner is at the API-call limit, `makeFilePublic`
and `makeFilePrivate` never reject with the intended quota error: the
rejection reaches the `.catch` handler, whose `new err` application of the
caught `Error` value throws, so the returned promise is never settled with
that (or any) error and no store is touched. -/
theorem makeFile_api_limit_unsettled (env : Env) (db : DB) (r : Remote) (f : FileEntry)
    (s : StorageStats)
    (h1 : env.statsFindErr = false) (h2 : db.findOneStats f.user = some s)
    (h3 : s.apiCallsAllocated ≤ s.apiCallsUsed + 1) :
    (makeFilePublic env db r f).result = .hung ∧
    (makeFilePrivate env db r f).result = .hung ∧
    (∀ e, (makeFilePublic env db r f).result ≠ .rejected e) ∧
    (∀ e, (makeFilePrivate env db r f).result ≠ .rejected e) ∧
    (makeFilePublic env db r f).db = db ∧ (makeFilePrivate env db r f).db = db := by
  have hw : withinAPILimitResult env db f.user = .resolved false := by
    unfold withinAPILimitResult
    rw [h2]
    simp [h1, if_neg (not_lt.mpr h3)]
  refine ⟨?_, ?_, ?_, ?_, ?_, ?_⟩ <;>
    simp [makeFilePublic, makeFilePrivate, withinAPILimit, hw]

/-- C10 witness: the sample user one API call away from the allocation. -/
theorem makeFile_api_limit_unsettled_witness :
    Env.ok.statsFindErr = false ∧ maxedDB.findOneStats sampleFile.user = some maxedStats ∧
    maxedStats.apiCallsAllocated ≤ maxedStats.apiCallsUsed + 1 ∧
    (makeFilePublic Env.ok maxedDB sampleRemote sampleFile).result = .hung :=
  ⟨rfl, by decide, by decide,
    (makeFile_api_limit_unsettled Env.ok maxedDB sampleRemote sampleFile maxedStats
      rfl (by decide) (by decide)).1⟩

theorem uploadStream_quota_reject (env : Env) (db : DB) (r : Remote) (part : UploadPart)
    (bucketEntry : BucketEntry) (user : String) (makePublic : Bool) (fileID : String)
    (now : Nat) (ev : StreamEvent) (e : String)
    (h : canUploadResult env db user part = .rejected e) :
    uploadStream env db r part bucketEntry user makePublic fileID now ev
      = ⟨db, r, [.findOneStats user], .rejected e⟩ := by
  simp [uploadStream, canUpload, h]

/-- C2: when the user has a stats record, the upload's Checking stage
rejects with the memory-quota message exactly when
`memoryUsed + byteCount >= memoryAllocated`, rejects with the API-quota
message exactly when the memory check passes and
`apiCallsUsed + 1 >= apiCallsAllocated`, and otherwise resolves with the
loaded snapshot; and whenever the check rejects, `uploadStream` makes no
further call, changes neither store and creates no remote object. -/
theorem canUpload_quota_gate (env : Env) (db : DB) (r : Remote) (part : UploadPart)
    (bucketEntry : BucketEntry) (user : String) (makePublic : Bool) (fileID : String)
    (now : Nat) (ev : StreamEvent) (s : StorageStats)
    (h1 : env.statsFindErr = false) (h2 : db.findOneStats user = some s) :
    (canUploadResult env db user part = .rejected memLimitMsg ↔
      s.memoryAllocated ≤ s.memoryUsed + part.byteCount) ∧
    (canUploadResult env db user part = .rejected apiLimitMsg ↔
      (s.memoryUsed + part.byteCount < s.memoryAllocated ∧
        s.apiCallsAllocated ≤ s.apiCallsUsed + 1)) ∧
    (canUploadResult env db user part = .resolved s ↔
      (s.memoryUsed + part.byteCount < s.memoryAllocated ∧
        s.apiCallsUsed + 1 < s.apiCallsAllocated)) ∧
    (∀ e, canUploadResult env db user part = .rejected e →
      uploadStream env db r part bucketEntry user makePublic fileID now ev
        = ⟨db, r, [.findOneStats user], .rejected e⟩) := by
  have hne : apiLimitMsg ≠ memLimitMsg := by decide
  have hres : canUploadResult env db user part =
      if s.memoryUsed + part.byteCount < s.memoryAllocated then
        if s.apiCallsUsed + 1 < s.apiCallsAllocated then PResult.resolved s
        else .rejected apiLimitMsg
      else .rejected memLimitMsg := by
    unfold canUploadResult
    rw [h2]
    simp [h1]
  refine ⟨?_, ?_, ?_,
    fun e he => uploadStream_quota_reject env db r part bucketEntry user makePublic
      fileID now ev e he⟩ <;> rw [hres] <;>
    by_cases hm : s.memoryUsed + part.byteCount < s.memoryAllocated
  · by_cases ha : s.apiCallsUsed + 1 < s.apiCallsAllocated <;>
      simp [hm, ha, hm.not_le, hne]
  · simp [hm, not_lt.mp hm]
  · by_cases ha : s.apiCallsUsed + 1 < s.apiCallsAllocated <;>
      simp [hm, ha, hm.not_le, not_lt.mp, hne]
  · simp [hm, not_lt.mp hm, hne.symm]
  · by_cases ha : s.apiCallsUsed + 1 < s.apiCallsAllocated <;> simp [hm, ha]
  · simp [hm]

/-- C2 witness: the sample user is under both quotas, so the gate resolves
with the loaded snapshot. -/
theorem canUpload_quota_gate_witness :
    Env.ok.statsFindErr = false ∧ sampleDB.findOneStats "u" = some sampleStats ∧
    (canUploadResult Env.ok sampleDB "u" samplePart = .resolved sampleStats ↔
      (sampleStats.memoryUsed + samplePart.byteCount < sampleStats.memoryAllocated ∧
        sampleStats.apiCallsUsed + 1 < sampleStats.apiCallsAllocated)) :=
  ⟨rfl, by decide,
    (canUpload_quota_gate Env.ok sampleDB sampleRemote samplePart sampleBucket "u" true
      "fid" 0 .streamError sampleStats rfl (by decide)).2.2.1⟩

/-- C8: `renameFile` first charges one API call and only then attempts the
name update, so the owner's `apiCallsUsed` rises by exactly 1 whether the
subsequent `files.update` succeeds (resolving with the file) or fails
(rejecting): the two steps are not atomic with each other. -/
theorem renameFile_charges_before_update (env : Env) (db : DB) (r : Remote)
    (f : FileEntry) (name : String) (s : StorageStats)
    (h1 : env.statsUpdateErr f.user = false) (h2 : db.findOneStats f.user = some s) :
    (renameFile env db r f name).trace = [.statsInc f.user 0 1, .fileNameSet f.mongoId name] ∧
    (renameFile env db r f name).db.findOneStats f.user =
      some { s with apiCallsUsed := s.apiCallsUsed + 1 } ∧
    (env.fileNameUpdateErr = true → (renameFile env db r f name).result = .rejected "ERR") ∧
    (env.fileNameUpdateErr = false → (renameFile env db r f name).result = .resolved f) := by
  have hstats : (db.updateStatsInc f.user 0 1).findOneStats f.user
      = some { s with apiCallsUsed := s.apiCallsUsed + 1 } := by
    rw [findOneStats_updateStatsInc_self db f.user 0 1 s h2]
    simp
  cases hn : env.fileNameUpdateErr with
  | true =>
    refine ⟨?_, ?_, fun _ => ?_, fun hc => by simp [hn] at hc⟩ <;>
      simp [renameFile, h1, hn, hstats]
  | false =>
    refine ⟨?_, ?_, fun hc => by simp [hn] at hc, fun _ => ?_⟩ <;>
      simp [renameFile, h1, hn, hstats, findOneStats_setFileName]

/-- C8 witness: renaming the sample file charges the call first. -/
theorem renameFile_charges_before_update_witness :
    Env.ok.statsUpdateErr sampleFile.user = false ∧
    sampleDB.findOneStats sampleFile.user = some sampleStats ∧
    (renameFile Env.ok sampleDB sampleRemote sampleFile "newname").trace
      = [.statsInc sampleFile.user 0 1, .fileNameSet sampleFile.mongoId "newname"] :=
  ⟨rfl, by decide,
    (renameFile_charges_before_update Env.ok sampleDB sampleRemote sampleFile "newname"
      sampleStats rfl (by decide)).1⟩

/-- C1 (amended): for an upload that passes the quota check and whose stream
completes, with the two counter updates healthy, `uploadStream` increments
`BucketEntry.memoryUsed` and `StorageStats.memoryUsed` each by exactly the
declared `part.byteCount` — not by the number of bytes the stream actually
moved, a quantity the code never reads — increments `apiCallsUsed` by
exactly 1, and creates the remote object. -/
theorem uploadStream_increments_declared_byteCount (env : Env) (db : DB) (r : Remote)
    (part : UploadPart) (bucketEntry : BucketEntry) (user : String) (makePublic : Bool)
    (fileID : String) (now : Nat) (actual : Int) (s : StorageStats) (bkt : BucketEntry)
    (h1 : env.statsFindErr = false) (h2 : db.findOneStats user = some s)
    (hm : s.memoryUsed + part.byteCount < s.memoryAllocated)
    (ha : s.apiCallsUsed + 1 < s.apiCallsAllocated)
    (h3 : env.bucketMemUpdateErr bucketEntry.identifier = false)
    (h4 : env.statsUpdateErr user = false)
    (h5 : db.findOneBucketByIdentifier bucketEntry.identifier = some bkt) :
    (uploadStream env db r part bucketEntry user makePublic fileID now
        (.completes actual)).db.findOneStats user =
      some { s with memoryUsed := s.memoryUsed + part.byteCount,
                    apiCallsUsed := s.apiCallsUsed + 1 } ∧
    (uploadStream env db r part bucketEntry user makePublic fileID now
        (.completes actual)).db.findOneBucketByIdentifier bucketEntry.identifier =
      some { bkt with memoryUsed := bkt.memoryUsed + part.byteCount } ∧
    (uploadStream env db r part bucketEntry user makePublic fileID now
        (.completes actual)).remote = r.addObject bucketEntry.identifier fileID := by
  have hcan : canUploadResult env db user part = .resolved s := by
    unfold canUploadResult
    rw [h2]
    simp [h1, hm, ha]
  have hstats : ((db.updateBucketMem bucketEntry.identifier part.byteCount).updateStatsInc
      user part.byteCount 1).findOneStats user
      = some { s with memoryUsed := s.memoryUsed + part.byteCount,
                      apiCallsUsed := s.apiCallsUsed + 1 } := by
    rw [findOneStats_updateStatsInc_self _ user part.byteCount 1 s
      (by rw [findOneStats_updateBucketMem]; exact h2)]
  have hbkt : ((db.updateBucketMem bucketEntry.identifier part.byteCount).updateStatsInc
      user part.byteCount 1).findOneBucketByIdentifier bucketEntry.identifier
      = some { bkt with memoryUsed := bkt.memoryUsed + part.byteCount } := by
    rw [findOneBucket_updateStatsInc, findOneBucket_updateBucketMem_self db _ _ bkt h5]
  cases hf : env.fileSaveErr <;> cases hmp : env.remoteMakePublicErr <;>
    cases makePublic <;> refine ⟨?_, ?_, ?_⟩ <;>
    simp [uploadStream, canUpload, hcan, h3, h4, hf, hmp, hstats, hbkt,
      findOneStats_addFile, findOneBucket_addFile]

/-- C1 witness: the sample upload of a five-byte part. -/
theorem uploadStream_increments_declared_byteCount_witness :
    sampleDB.findOneStats "u" = some sampleStats ∧
    (uploadStream Env.ok sampleDB sampleRemote samplePart sampleBucket "u" false
        "obj2" 0 (.completes 5)).db.findOneStats "u" =
      some { sampleStats with memoryUsed := sampleStats.memoryUsed + samplePart.byteCount,
                              apiCallsUsed := sampleStats.apiCallsUsed + 1 } :=
  ⟨by decide,
    (uploadStream_increments_declared_byteCount Env.ok sampleDB sampleRemote samplePart
      sampleBucket "u" false "obj2" 0 5 sampleStats sampleBucket rfl (by decide)
      (by decide) (by decide) rfl rfl (by decide)).1⟩

/-- C1 counterexample: a part declaring 5 bytes whose stream actually moves
3; the code raises the sample user's `memoryUsed` from 10 to 15 (the
declared count), not to 13 as counting the transferred bytes would. -/
theorem uploadStream_counts_declared_not_transferred :
    (uploadStream Env.ok sampleDB sampleRemote samplePart sampleBucket "u" false
        "obj2" 0 (.completes 3)).db.findOneStats "u" =
      some ⟨"u", 15, 100, 4, 20⟩ ∧
    sampleStats.memoryUsed + 3 ≠ 15 := ⟨by decide, by decide⟩

/-- C6: batch deletion never rejects because an item's deletion failed: with
healthy find/toArray phases, `removeFiles` and `removeBuckets` always
resolve, listing exactly the identifiers of the matched entries whose
per-item deletion succeeded — in particular a batch in which every item
fails still resolves, with an empty result. -/
theorem batch_removal_lenient (env : Env) (db : DB) (r : Remote)
    (q : FileEntry → Bool) (qb : BucketEntry → Bool)
    (h1 : env.filesFindErr = false) (h2 : env.filesToArrayErr = false)
    (h3 : env.bucketsFindErr = false) (h4 : env.bucketsToArrayErr = false) :
    (removeFiles env db r q).result =
      .resolved (some (((db.files.filter q).filter fun f => deleteFileSucceeds env db f).map
        FileEntry.identifier)) ∧
    (removeBuckets env db r qb).result =
      .resolved (some (((db.buckets.filter qb).filter fun b => deleteBucketSucceeds env b).map
        BucketEntry.identifier)) ∧
    ((∀ f ∈ db.files.filter q, deleteFileSucceeds env db f = false) →
      (removeFiles env db r q).result = .resolved (some [])) ∧
    ((∀ b ∈ db.buckets.filter qb, deleteBucketSucceeds env b = false) →
      (removeBuckets env db r qb).result = .resolved (some [])) := by
  refine ⟨removeFiles_result env db r q h1 h2, removeBuckets_result env db r qb h3 h4,
    ?_, ?_⟩
  · intro hall
    rw [removeFiles_result env db r q h1 h2]
    have hnil : (db.files.filter q).filter (fun f => deleteFileSucceeds env db f) = [] := by
      rw [List.filter_eq_nil_iff]
      intro a ha
      simp [hall a ha]
    rw [hnil]
    rfl
  · intro hall
    rw [removeBuckets_result env db r qb h3 h4]
    have hnil : (db.buckets.filter qb).filter (fun b => deleteBucketSucceeds env b) = [] := by
      rw [List.filter_eq_nil_iff]
      intro a ha
      simp [hall a ha]
    rw [hnil]
    rfl

/-- C6 witness: under an environment in which every remote object delete
fails, the sample one-file batch resolves (with the empty list). -/
theorem batch_removal_lenient_witness :
    envObjDeleteFails.filesFindErr = false ∧
    (removeFiles envObjDeleteFails sampleDB sampleRemote
        (bucketFileQuery "webinate-bucket-x")).result =
      .resolved (some (((sampleDB.files.filter
          (bucketFileQuery "webinate-bucket-x")).filter
        fun f => deleteFileSucceeds envObjDeleteFails sampleDB f).map FileEntry.identifier)) ∧
    (removeFiles envObjDeleteFails sampleDB sampleRemote
        (bucketFileQuery "webinate-bucket-x")).result = .resolved (some []) :=
  ⟨rfl,
    (batch_removal_lenient envObjDeleteFails sampleDB sampleRemote
      (bucketFileQuery "webinate-bucket-x") (fun _ => true) rfl rfl rfl rfl).1,
    by decide⟩

/-- C3: `deleteFile` rejects with the bucket-not-found message when the
owning bucket does not resolve, and otherwise makes its calls in exactly
the order remote-object delete, bucket byte-counter decrement, local file
record removal, stats decrement-and-charge; the first failing call rejects
and aborts all later calls, and the stores keep exactly the effects of the
calls already completed (no completed step is undone). -/
theorem deleteFile_order_and_abort (env : Env) (db : DB) (r : Remote) (f : FileEntry)
    (h0 : env.bucketFindErr = false) :
    (db.findOneBucketByIdentifier f.bucketId = none →
      deleteFile env db r f = ⟨db, r, [.findOneBucket f.bucketId],
        .rejected ("Could not find the bucket " ++ f.bucketName)⟩) ∧
    (∀ b, db.findOneBucketByIdentifier f.bucketId = some b →
      (env.remoteDeleteObjectErr f.identifier = true →
        deleteFile env db r f = ⟨db, r,
          [.findOneBucket f.bucketId, .remoteDeleteObject b.identifier f.identifier],
          .rejected (deleteFileErrMsg f.identifier)⟩) ∧
      (env.remoteDeleteObjectErr f.identifier = false →
        (env.bucketMemUpdateErr b.identifier = true →
          deleteFile env db r f = ⟨db, r.deleteObject b.identifier f.identifier,
            [.findOneBucket f.bucketId, .remoteDeleteObject b.identifier f.identifier,
             .bucketMemInc b.identifier (-f.size)],
            .rejected (deleteFileErrMsg f.identifier)⟩) ∧
        (env.bucketMemUpdateErr b.identifier = false →
          (env.fileRemoveErr f.mongoId = true →
            deleteFile env db r f = ⟨db.updateBucketMem b.identifier (-f.size),
              r.deleteObject b.identifier f.identifier,
              [.findOneBucket f.bucketId, .remoteDeleteObject b.identifier f.identifier,
               .bucketMemInc b.identifier (-f.size), .fileRemove f.mongoId],
              .rejected (deleteFileErrMsg f.identifier)⟩) ∧
          (env.fileRemoveErr f.mongoId = false →
            (env.statsUpdateErr b.user = true →
              deleteFile env db r f =
                ⟨(db.updateBucketMem b.identifier (-f.size)).removeFileById f.mongoId,
                 r.deleteObject b.identifier f.identifier,
                 [.findOneBucket f.bucketId, .remoteDeleteObject b.identifier f.identifier,
                  .bucketMemInc b.identifier (-f.size), .fileRemove f.mongoId,
                  .statsInc b.user (-f.size) 1],
                 .rejected (deleteFileErrMsg f.identifier)⟩) ∧
            (env.statsUpdateErr b.user = false →
              deleteFile env db r f =
                ⟨((db.updateBucketMem b.identifier (-f.size)).removeFileById
                    f.mongoId).updateStatsInc b.user (-f.size) 1,
                 r.deleteObject b.identifier f.identifier,
                 [.findOneBucket f.bucketId, .remoteDeleteObject b.identifier f.identifier,
                  .bucketMemInc b.identifier (-f.size), .fileRemove f.mongoId,
                  .statsInc b.user (-f.size) 1],
                 .resolved f⟩))))) := by
  refine ⟨fun hn => by simp [deleteFile, h0, hn], fun b hb => ?_⟩
  refine ⟨fun e1 => by simp [deleteFile, h0, hb, e1], fun e1 => ?_⟩
  refine ⟨fun e2 => by simp [deleteFile, h0, hb, e1, e2], fun e2 => ?_⟩
  refine ⟨fun e3 => by simp [deleteFile, h0, hb, e1, e2, e3], fun e3 => ?_⟩
  exact ⟨fun e4 => by simp [deleteFile, h0, hb, e1, e2, e3, e4],
    fun e4 => by simp [deleteFile, h0, hb, e1, e2, e3, e4]⟩

/-- C3 witness: deleting the sample file with no faults runs all five calls
in order and applies all four state changes. -/
theorem deleteFile_order_and_abort_witness :
    sampleDB.findOneBucketByIdentifier sampleFile.bucketId = some sampleBucket ∧
    deleteFile Env.ok sampleDB sampleRemote sampleFile =
      ⟨((sampleDB.updateBucketMem sampleBucket.identifier (-sampleFile.size)).removeFileById
          sampleFile.mongoId).updateStatsInc sampleBucket.user (-sampleFile.size) 1,
       sampleRemote.deleteObject sampleBucket.identifier sampleFile.identifier,
       [.findOneBucket sampleFile.bucketId,
        .remoteDeleteObject sampleBucket.identifier sampleFile.identifier,
        .bucketMemInc sampleBucket.identifier (-sampleFile.size),
        .fileRemove sampleFile.mongoId,
        .statsInc sampleBucket.user (-sampleFile.size) 1],
       .resolved sampleFile⟩ := by
  refine ⟨by decide, ?_⟩
  have h := (deleteFile_order_and_abort Env.ok sampleDB sampleRemote sampleFile rfl).2
    sampleBucket (by decide)
  exact (((h.2 rfl).2 rfl).2 rfl).2 rfl

/-- C5 (amended): `deleteBucket` proceeds in the order file deletion, remote
container deletion, local entry removal, API-call increment.  A failure of
the file-deletion phase or of the remote container delete rejects the
promise and aborts the remaining steps, without undoing completed ones; but
the local entry removal and the counter increment have their errors ignored,
so when either of those two calls fails its change is simply lost and
`deleteBucket` still resolves. -/
theorem deleteBucket_order_and_ignored_errors (env : Env) (db : DB) (r : Remote)
    (b : BucketEntry) :
    (∀ e, (removeFilesByBucket env db r b.identifier).result = .rejected e →
      deleteBucket env db r b = ⟨(removeFilesByBucket env db r b.identifier).db,
        (removeFilesByBucket env db r b.identifier).remote,
        (removeFilesByBucket env db r b.identifier).trace,
        .rejected ("Could not remove the bucket: " ++ e)⟩) ∧
    (∀ ids, (removeFilesByBucket env db r b.identifier).result = .resolved ids →
      (env.remoteDeleteContainerErr b.identifier = true →
        deleteBucket env db r b = ⟨(removeFilesByBucket env db r b.identifier).db,
          (removeFilesByBucket env db r b.identifier).remote,
          (removeFilesByBucket env db r b.identifier).trace ++
            [.remoteDeleteContainer b.identifier],
          .rejected "Could not remove bucket from storage system: ERR"⟩) ∧
      (env.remoteDeleteContainerErr b.identifier = false →
        (deleteBucket env db r b).trace =
          (removeFilesByBucket env db r b.identifier).trace ++
            [.remoteDeleteContainer b.identifier, .bucketRemove b.mongoId,
             .statsInc b.user 0 1] ∧
        (deleteBucket env db r b).remote =
          (removeFilesByBucket env db r b.identifier).remote.deleteContainer b.identifier ∧
        (deleteBucket env db r b).result = .resolved b ∧
        (env.bucketRemoveErr b.mongoId = true → env.statsUpdateErr b.user = true →
          (deleteBucket env db r b).db = (removeFilesByBucket env db r b.identifier).db) ∧
        (env.bucketRemoveErr b.mongoId = true → env.statsUpdateErr b.user = false →
          (deleteBucket env db r b).db =
            (removeFilesByBucket env db r b.identifier).db.updateStatsInc b.user 0 1) ∧
        (env.bucketRemoveErr b.mongoId = false → env.statsUpdateErr b.user = true →
          (deleteBucket env db r b).db =
            (removeFilesByBucket env db r b.identifier).db.removeBucketById b.mongoId) ∧
        (env.bucketRemoveErr b.mongoId = false → env.statsUpdateErr b.user = false →
          (deleteBucket env db r b).db =
            ((removeFilesByBucket env db r b.identifier).db.removeBucketById
              b.mongoId).updateStatsInc b.user 0 1))) := by
  constructor
  · intro e he
    simp [deleteBucket, he]
  · intro ids hres
    constructor
    · intro hdc
      simp [deleteBucket, hres, hdc]
    · intro hdc
      refine ⟨by simp [deleteBucket, hres, hdc], by simp [deleteBucket, hres, hdc],
        by simp [deleteBucket, hres, hdc], ?_, ?_, ?_, ?_⟩ <;>
        intro hbr hsu <;> simp [deleteBucket, hres, hdc, hbr, hsu]

/-- C5 witness: with no faults, deleting the sample empty bucket runs all
four phases in order and resolves. -/
theorem deleteBucket_order_witness :
    (removeFilesByBucket Env.ok bucketOnlyDB sampleRemote
        sampleBucket.identifier).result = .resolved (some []) ∧
    Env.ok.remoteDeleteContainerErr sampleBucket.identifier = false ∧
    (deleteBucket Env.ok bucketOnlyDB sampleRemote sampleBucket).result
      = .resolved sampleBucket := by
  refine ⟨by decide, rfl, ?_⟩
  exact (((deleteBucket_order_and_ignored_errors Env.ok bucketOnlyDB sampleRemote
    sampleBucket).2 (some []) (by decide)).2 rfl).2.2.1

/-- C5 counterexample: the local-entry removal step fails (its error flag is
set and the entry survives), yet `deleteBucket` resolves instead of
rejecting as the claim requires. -/
theorem deleteBucket_ignored_failure_counterexample :
    envBucketRemoveFails.bucketRemoveErr sampleBucket.mongoId = true ∧
    (deleteBucket envBucketRemoveFails bucketOnlyDB sampleRemote sampleBucket).result
      = .resolved sampleBucket ∧
    (deleteBucket envBucketRemoveFails bucketOnlyDB sampleRemote sampleBucket).db.buckets
      = [sampleBucket] := by
  refine ⟨rfl, by decide, by decide⟩
